import Mathlib

/-!
Verification of the salon persistence layer (`src/lib/database.ts`).

The TypeScript module is shallowly embedded: each table row is a Lean
structure mirroring the SQLite columns, the whole store is a `DbState`
holding one list of rows per table, and every repository operation is a
pure Lean function on `DbState`.  JavaScript `undefined`/SQL `NULL` are
both modelled as `none : Option _`; JavaScript truthiness on strings
(`x || d`, `if (x)`) is modelled explicitly; `JSON.stringify`/`JSON.parse`
on the array-valued columns is modelled by an executable codec for JSON
arrays of strings (the only shape this layer ever writes), with parse
failure surfacing as `Except.error`, matching the propagated
`SyntaxError` of `JSON.parse`.  `ORDER BY` is modelled by
`List.insertionSort` with the comparison used by the query.
-/

/-! ### JSON string-array codec (`JSON.stringify` / `JSON.parse`) -/

/-- `JSON.stringify` escaping of one character inside a string literal
(the layer only ever stores printable text; `"` and `\` are escaped). -/
def escChar (c : Char) : List Char :=
  if c = '"' ∨ c = '\\' then ['\\', c] else [c]

/-- Escape a whole character list. -/
def escList : List Char → List Char
  | [] => []
  | c :: cs => escChar c ++ escList cs

/-- Encoding of the items after the first one: `,"…","…"` …  The nesting
mirrors how the parser consumes the text. -/
def encSep : List String → List Char
  | [] => []
  | s :: r => ',' :: '"' :: (escList s.data ++ '"' :: encSep r)

/-- `JSON.stringify` of an array of strings, e.g. `["a","b"]`. -/
def encodeStrList : List String → String
  | [] => String.mk ['[', ']']
  | s :: r => String.mk ('[' :: '"' :: (escList s.data ++ '"' :: (encSep r ++ [']'])))

/-- Scan a JSON string literal body (after the opening quote): returns the
decoded characters and the remaining input, or `none` on malformed input.
The flag records whether the previous character was an unconsumed `\`. -/
def parseStrAux : Bool → List Char → Option (List Char × List Char)
  | _, [] => none
  | true, d :: cs =>
    if d = '"' ∨ d = '\\' then
      (parseStrAux false cs).map (fun p => (d :: p.1, p.2))
    else none
  | false, c :: cs =>
    if c = '"' then some ([], cs)
    else if c = '\\' then parseStrAux true cs
    else (parseStrAux false cs).map (fun p => (c :: p.1, p.2))

/-- Parse the items of a JSON array of strings, positioned just after an
opening quote; `fuel` bounds the number of items. -/
def parseListAux : Nat → List Char → Option (List String)
  | 0, _ => none
  | fuel + 1, cs =>
    match parseStrAux false cs with
    | none => none
    | some (item, rest) =>
      match rest with
      | [']'] => some [String.mk item]
      | ',' :: rest2 =>
        match rest2 with
        | [] => none
        | c :: rest3 =>
          if c = '"' then (parseListAux fuel rest3).map (String.mk item :: ·)
          else none
      | _ => none

/-- `JSON.parse` restricted to arrays of strings: `none` is a parse
failure (a thrown `SyntaxError`). -/
def parseStrList (s : String) : Option (List String) :=
  match s.data with
  | '[' :: ']' :: [] => some []
  | '[' :: '"' :: cs => parseListAux (cs.length + 1) cs
  | _ => none

theorem stringMk_data (s : String) : String.mk s.data = s := rfl

theorem parseStrAux_esc (cs t : List Char) :
    parseStrAux false (escList cs ++ '"' :: t) = some (cs, t) := by
  induction cs with
  | nil => simp [escList, parseStrAux]
  | cons c cs ih =>
    by_cases h1 : c = '"'
    · subst h1
      simp [escList, escChar, parseStrAux, ih]
    · by_cases h2 : c = '\\'
      · subst h2
        simp [escList, escChar, parseStrAux, ih]
      · simp [escList, escChar, parseStrAux, h1, h2, ih]

theorem encSep_length_ge (l : List String) : l.length ≤ (encSep l).length := by
  induction l with
  | nil => simp [encSep]
  | cons s r ih => simp [encSep]; omega

theorem parseListAux_enc (l : List String) (s : String) (fuel : Nat)
    (hf : l.length < fuel) :
    parseListAux fuel (escList s.data ++ '"' :: (encSep l ++ [']'])) = some (s :: l) := by
  induction l generalizing s fuel with
  | nil =>
    cases fuel with
    | zero => exact absurd hf (by omega)
    | succ fuel =>
      simp [parseListAux, encSep, parseStrAux_esc, stringMk_data]
  | cons s2 r ih =>
    cases fuel with
    | zero => exact absurd hf (by omega)
    | succ fuel =>
      have hr : r.length < fuel := by simp at hf; omega
      have harr : encSep (s2 :: r) ++ [']']
          = ',' :: '"' :: (escList s2.data ++ '"' :: (encSep r ++ [']'])) := by
        simp [encSep]
      simp only [parseListAux, harr, parseStrAux_esc]
      simp [ih s2 fuel hr, stringMk_data]

/-- Round trip: decoding an encoded string list recovers it exactly. -/
theorem parseStrList_encode (l : List String) :
    parseStrList (encodeStrList l) = some l := by
  cases l with
  | nil => rfl
  | cons s r =>
    have hlen : r.length < (escList s.data ++ '"' :: (encSep r ++ [']'])).length + 1 := by
      have := encSep_length_ge r
      simp
      omega
    exact parseListAux_enc r s _ hlen

theorem encodeStrList_ne_empty (l : List String) : encodeStrList l ≠ "" := by
  cases l with
  | nil =>
    intro h
    have h2 : ('[' :: [']'] : List Char) = ([] : List Char) := congrArg String.data h
    exact List.noConfusion h2
  | cons s r =>
    intro h
    have h2 : ('[' :: '"' :: (escList s.data ++ '"' :: (encSep r ++ [']'])) : List Char)
        = ([] : List Char) := congrArg String.data h
    exact List.noConfusion h2

/-! ### JavaScript helpers -/

/-- `v || d` for a possibly-absent string: JS treats `undefined`, `null`
and the empty string as falsy. -/
def jsOr (v : Option String) (d : String) : String :=
  match v with
  | some s => if s = "" then d else s
  | none => d

/-- `v || d` for a possibly-absent number (JS treats `0` as falsy, so
`rating: 0` also falls back to the default). -/
def jsRatOr (v : Option Rat) (d : Rat) : Rat :=
  match v with
  | some r => if r = 0 then d else r
  | none => d

/-- `v || null` for an optional string argument: an omitted or empty
string becomes SQL `NULL`. -/
def jsOrNull (v : Option String) : Option String :=
  match v with
  | some s => if s = "" then none else some s
  | none => none

/-- Decode a nullable JSON-array column read as
`JSON.parse(col || '[]')`: absent or empty text falls back to `[]`. -/
def decodeJsonListCol (v : Option String) : Except String (List String) :=
  match parseStrList (jsOr v "[]") with
  | some l => .ok l
  | none => .error "SyntaxError"

/-- Decode a NOT NULL JSON-array column read as `JSON.parse(col)`:
no fallback, so empty text is a parse failure. -/
def decodeJsonListReq (v : String) : Except String (List String) :=
  match parseStrList v with
  | some l => .ok l
  | none => .error "SyntaxError"

theorem decodeJsonListCol_encode (l : List String) :
    decodeJsonListCol (some (encodeStrList l)) = .ok l := by
  simp [decodeJsonListCol, jsOr, encodeStrList_ne_empty l, parseStrList_encode l]

/-! ### Table rows (the SQLite schema of `createTables`) -/

/-- A row of the `customers` table. -/
structure CustomerRow where
  id : String
  name : String
  phone : String
  email : Option String
  gender : String
  visit_count : Int
  total_spent : Rat
  last_visit : Option String
  preferred_services : Option String
  notes : Option String
  photo : Option String
  created_at : String
  updated_at : String
deriving DecidableEq

/-- A row of the `employees` table (`available` is an INTEGER flag). -/
structure EmployeeRow where
  id : String
  name : String
  role : String
  email : Option String
  phone : Option String
  photo : Option String
  available : Int
  specialties : Option String
  rating : Rat
  next_available : Option String
  working_hours_start : String
  working_hours_end : String
  created_at : String
  updated_at : String
deriving DecidableEq

/-- A row of the `services` table. -/
structure ServiceRow where
  id : String
  name : String
  duration : Int
  price : Rat
  category : String
  description : Option String
  created_at : String
  updated_at : String
deriving DecidableEq

/-- A row of the `appointments` table (`service_ids` is NOT NULL). -/
structure AppointmentRow where
  id : String
  customer_id : String
  employee_id : String
  service_ids : String
  date : String
  time : String
  status : String
  total : Rat
  notes : Option String
  created_at : String
  updated_at : String
deriving DecidableEq

/-- A row of the `tally_items` table (`services` is NOT NULL). -/
structure TallyRow where
  id : String
  date : String
  time : String
  customer_name : String
  customer_phone : String
  staff_name : String
  services : String
  total_cost : Rat
  payment_method : String
  payment_status : String
  payment_date : Option String
  upi_transaction_id : Option String
  created_at : String
  updated_at : String
deriving DecidableEq

/-- A row of the `products` table. -/
structure ProductRow where
  id : String
  name : String
  price : Rat
  image : Option String
  category : String
  stock : Int
  description : Option String
  brand : Option String
  created_at : String
  updated_at : String
deriving DecidableEq

/-- The whole store: one list of rows per table. -/
structure DbState where
  customers : List CustomerRow
  employees : List EmployeeRow
  services : List ServiceRow
  appointments : List AppointmentRow
  tally_items : List TallyRow
  products : List ProductRow
deriving DecidableEq

/-- The empty database, the state right after `createTables` on a fresh file. -/
def emptyDb : DbState :=
  { customers := [], employees := [], services := [], appointments := []
    tally_items := [], products := [] }

/-! ### Domain record shapes

Modelled from the spec: the `Customer`, `Employee` and `TallyItem` record
shapes live in `@/contexts/…`, outside this repository snapshot; their
fields are taken from the spec's data-model table and from how
`database.ts` reads and writes them. -/

/-- The `Customer` domain record as produced by `customerDb.getAll`/`getById`
and `customerDb.create`. -/
structure Customer where
  id : String
  name : String
  phone : String
  email : Option String
  gender : String
  visitCount : Int
  totalSpent : Rat
  lastVisit : Option String
  preferredServices : List String
  notes : Option String
  photo : Option String
deriving DecidableEq

/-- `workingHours` sub-record of an employee (`{start, end}`). -/
structure WorkingHours where
  start : String
  endTime : String
deriving DecidableEq

/-- The `Employee` domain record as produced by `employeeDb.getAll`. -/
structure Employee where
  id : String
  name : String
  role : String
  email : Option String
  phone : Option String
  photo : Option String
  available : Bool
  specialties : List String
  rating : Rat
  nextAvailable : Option String
  workingHours : WorkingHours
deriving DecidableEq

/-- The appointment record as produced by `appointmentDb.getAll`. -/
structure Appointment where
  id : String
  customerId : String
  employeeId : String
  serviceIds : List String
  date : String
  time : String
  status : String
  total : Rat
  notes : Option String
deriving DecidableEq

/-- The `TallyItem` domain record as produced by `tallyDb.getAll` and
`tallyDb.create` (`services` elements are modelled as strings; the layer
only ever round-trips them through `JSON.stringify`/`JSON.parse`). -/
structure TallyItem where
  id : String
  date : String
  time : String
  customerName : String
  customerPhone : String
  staffName : String
  services : List String
  totalCost : Rat
  paymentMethod : String
  paymentStatus : String
  paymentDate : Option String
  upiTransactionId : Option String
deriving DecidableEq

/-! ### Row decoding (the `rows.map(row => ({...}))` bodies) -/

/-- `customerDb` row-to-record mapping; `JSON.parse(row.preferred_services
|| '[]')` may throw, which surfaces as `Except.error`. -/
def decodeCustomerRow (r : CustomerRow) : Except String Customer :=
  match parseStrList (jsOr r.preferred_services "[]") with
  | none => .error "SyntaxError"
  | some l =>
    .ok { id := r.id, name := r.name, phone := r.phone, email := r.email
          gender := r.gender, visitCount := r.visit_count
          totalSpent := r.total_spent, lastVisit := r.last_visit
          preferredServices := l, notes := r.notes, photo := r.photo }

/-- Total version of `decodeCustomerRow`, meaningful on rows whose
`preferred_services` column parses. -/
def pureDecodeCustomerRow (r : CustomerRow) : Customer :=
  { id := r.id, name := r.name, phone := r.phone, email := r.email
    gender := r.gender, visitCount := r.visit_count
    totalSpent := r.total_spent, lastVisit := r.last_visit
    preferredServices := (parseStrList (jsOr r.preferred_services "[]")).getD []
    notes := r.notes, photo := r.photo }

/-- `employeeDb` row-to-record mapping (`Boolean(row.available)` and
`JSON.parse(row.specialties || '[]')`). -/
def decodeEmployeeRow (r : EmployeeRow) : Except String Employee :=
  match parseStrList (jsOr r.specialties "[]") with
  | none => .error "SyntaxError"
  | some l =>
    .ok { id := r.id, name := r.name, role := r.role, email := r.email
          phone := r.phone, photo := r.photo, available := r.available != 0
          specialties := l, rating := r.rating
          nextAvailable := r.next_available
          workingHours := { start := r.working_hours_start
                            endTime := r.working_hours_end } }

/-- Total version of `decodeEmployeeRow`. -/
def pureDecodeEmployeeRow (r : EmployeeRow) : Employee :=
  { id := r.id, name := r.name, role := r.role, email := r.email
    phone := r.phone, photo := r.photo, available := r.available != 0
    specialties := (parseStrList (jsOr r.specialties "[]")).getD []
    rating := r.rating, nextAvailable := r.next_available
    workingHours := { start := r.working_hours_start
                      endTime := r.working_hours_end } }

/-- `appointmentDb` row-to-record mapping; `JSON.parse(row.service_ids)`
has no empty fallback. -/
def decodeAppointmentRow (r : AppointmentRow) : Except String Appointment :=
  match parseStrList r.service_ids with
  | none => .error "SyntaxError"
  | some l =>
    .ok { id := r.id, customerId := r.customer_id, employeeId := r.employee_id
          serviceIds := l, date := r.date, time := r.time, status := r.status
          total := r.total, notes := r.notes }

/-- Total version of `decodeAppointmentRow`. -/
def pureDecodeAppointmentRow (r : AppointmentRow) : Appointment :=
  { id := r.id, customerId := r.customer_id, employeeId := r.employee_id
    serviceIds := (parseStrList r.service_ids).getD []
    date := r.date, time := r.time, status := r.status
    total := r.total, notes := r.notes }

/-- `tallyDb` row-to-record mapping; `JSON.parse(row.services)` has no
empty fallback. -/
def decodeTallyRow (r : TallyRow) : Except String TallyItem :=
  match parseStrList r.services with
  | none => .error "SyntaxError"
  | some l =>
    .ok { id := r.id, date := r.date, time := r.time
          customerName := r.customer_name, customerPhone := r.customer_phone
          staffName := r.staff_name, services := l, totalCost := r.total_cost
          paymentMethod := r.payment_method, paymentStatus := r.payment_status
          paymentDate := r.payment_date
          upiTransactionId := r.upi_transaction_id }

/-- Total version of `decodeTallyRow`. -/
def pureDecodeTallyRow (r : TallyRow) : TallyItem :=
  { id := r.id, date := r.date, time := r.time
    customerName := r.customer_name, customerPhone := r.customer_phone
    staffName := r.staff_name
    services := (parseStrList r.services).getD []
    totalCost := r.total_cost, paymentMethod := r.payment_method
    paymentStatus := r.payment_status, paymentDate := r.payment_date
    upiTransactionId := r.upi_transaction_id }

/-- Decode a whole result set; the first failing row aborts with its
error, as a thrown exception inside `rows.map` would. -/
def decodeAll {ρ ι : Type} (dec : ρ → Except String ι) : List ρ → Except String (List ι)
  | [] => .ok []
  | r :: rs =>
    match dec r with
    | .error e => .error e
    | .ok it =>
      match decodeAll dec rs with
      | .error e => .error e
      | .ok l => .ok (it :: l)

/-! ### ORDER BY comparisons

SQLite's default BINARY collation orders TEXT values by their UTF-8
bytes, which coincides with codepoint-lexicographic order on the
character lists; it is modelled by an executable lexicographic
comparison. -/

/-- Lexicographic (codepoint) less-or-equal on character lists. -/
def listCharLe : List Char → List Char → Bool
  | [], _ => true
  | _ :: _, [] => false
  | a :: as, b :: bs =>
    if a < b then true
    else if b < a then false
    else listCharLe as bs

/-- Lexicographic (codepoint) strictly-less on character lists. -/
def listCharLt : List Char → List Char → Bool
  | [], [] => false
  | [], _ :: _ => true
  | _ :: _, [] => false
  | a :: as, b :: bs =>
    if a < b then true
    else if b < a then false
    else listCharLt as bs

/-- BINARY-collation `<=` on TEXT values. -/
def strLeB (a b : String) : Bool := listCharLe a.data b.data

/-- BINARY-collation `<` on TEXT values. -/
def strLtB (a b : String) : Bool := listCharLt a.data b.data

theorem string_data_eq {a b : String} (h : a.data = b.data) : a = b := by
  rw [← stringMk_data a, h, stringMk_data]

theorem listCharLe_total : ∀ (as bs : List Char),
    listCharLe as bs = true ∨ listCharLe bs as = true
  | [], _ => Or.inl rfl
  | _ :: _, [] => Or.inr rfl
  | a :: as, b :: bs => by
    rcases lt_trichotomy a b with h | h | h
    · left
      simp [listCharLe, h]
    · subst h
      rcases listCharLe_total as bs with ih | ih
      · left
        simp [listCharLe, ih]
      · right
        simp [listCharLe, ih]
    · right
      simp [listCharLe, h]

theorem listCharLe_trans : ∀ (as bs cs : List Char),
    listCharLe as bs = true → listCharLe bs cs = true → listCharLe as cs = true
  | [], _, _ => fun _ _ => rfl
  | _ :: _, [], _ => fun h _ => by cases h
  | _ :: _, _ :: _, [] => fun _ h => by cases h
  | a :: as, b :: bs, c :: cs => fun h1 h2 => by
    rcases lt_trichotomy a b with hab | hab | hab
    · rcases lt_trichotomy b c with hbc | hbc | hbc
      · simp [listCharLe, lt_trans hab hbc]
      · subst hbc
        simp [listCharLe, hab]
      · exfalso
        simp [listCharLe, asymm hbc, hbc] at h2
    · subst hab
      rcases lt_trichotomy a c with hbc | hbc | hbc
      · simp [listCharLe, hbc]
      · subst hbc
        simp only [listCharLe, lt_irrefl, if_false] at h1 h2 ⊢
        exact listCharLe_trans as bs cs h1 h2
      · exfalso
        simp [listCharLe, asymm hbc, hbc] at h2
    · exfalso
      simp [listCharLe, asymm hab, hab] at h1

theorem listCharLt_trans : ∀ (as bs cs : List Char),
    listCharLt as bs = true → listCharLt bs cs = true → listCharLt as cs = true
  | [], [], _ => fun h _ => by cases h
  | [], _ :: _, [] => fun _ h => by cases h
  | [], _ :: _, _ :: _ => fun _ _ => rfl
  | _ :: _, [], _ => fun h _ => by cases h
  | _ :: _, _ :: _, [] => fun _ h => by cases h
  | a :: as, b :: bs, c :: cs => fun h1 h2 => by
    rcases lt_trichotomy a b with hab | hab | hab
    · rcases lt_trichotomy b c with hbc | hbc | hbc
      · simp [listCharLt, lt_trans hab hbc]
      · subst hbc
        simp [listCharLt, hab]
      · exfalso
        simp [listCharLt, asymm hbc, hbc] at h2
    · subst hab
      rcases lt_trichotomy a c with hbc | hbc | hbc
      · simp [listCharLt, hbc]
      · subst hbc
        simp only [listCharLt, lt_irrefl, if_false] at h1 h2 ⊢
        exact listCharLt_trans as bs cs h1 h2
      · exfalso
        simp [listCharLt, asymm hbc, hbc] at h2
    · exfalso
      simp [listCharLt, asymm hab, hab] at h1

theorem listCharLt_trichotomy : ∀ (as bs : List Char),
    listCharLt as bs = true ∨ as = bs ∨ listCharLt bs as = true
  | [], [] => Or.inr (Or.inl rfl)
  | [], _ :: _ => Or.inl rfl
  | _ :: _, [] => Or.inr (Or.inr rfl)
  | a :: as, b :: bs => by
    rcases lt_trichotomy a b with h | h | h
    · left
      simp [listCharLt, h]
    · subst h
      rcases listCharLt_trichotomy as bs with ih | ih | ih
      · left
        simp [listCharLt, ih]
      · right
        left
        rw [ih]
      · right
        right
        simp [listCharLt, ih]
    · right
      right
      simp [listCharLt, h]

/-- `ORDER BY name` (ascending). -/
def nameLe {ρ : Type} (nameOf : ρ → String) (a b : ρ) : Prop :=
  strLeB (nameOf a) (nameOf b) = true

/-- `ORDER BY date, time` (ascending lexicographic). -/
def dateTimeLe {ρ : Type} (dOf tOf : ρ → String) (a b : ρ) : Prop :=
  strLtB (dOf a) (dOf b) = true ∨ (dOf a = dOf b ∧ strLeB (tOf a) (tOf b) = true)

/-- `ORDER BY date DESC, time DESC` (descending lexicographic). -/
def dateTimeGe {ρ : Type} (dOf tOf : ρ → String) (a b : ρ) : Prop :=
  dateTimeLe dOf tOf b a

instance {ρ : Type} (nameOf : ρ → String) : DecidableRel (nameLe nameOf) :=
  fun a b => inferInstanceAs (Decidable (strLeB (nameOf a) (nameOf b) = true))

instance {ρ : Type} (dOf tOf : ρ → String) : DecidableRel (dateTimeLe dOf tOf) :=
  fun a b =>
    inferInstanceAs (Decidable (strLtB (dOf a) (dOf b) = true ∨
      (dOf a = dOf b ∧ strLeB (tOf a) (tOf b) = true)))

instance {ρ : Type} (dOf tOf : ρ → String) : DecidableRel (dateTimeGe dOf tOf) :=
  fun a b => inferInstanceAs (Decidable (dateTimeLe dOf tOf b a))

instance {ρ : Type} (nameOf : ρ → String) : IsTotal ρ (nameLe nameOf) :=
  ⟨fun a b => listCharLe_total (nameOf a).data (nameOf b).data⟩

instance {ρ : Type} (nameOf : ρ → String) : IsTrans ρ (nameLe nameOf) :=
  ⟨fun _ _ _ hab hbc => listCharLe_trans _ _ _ hab hbc⟩

instance {ρ : Type} (dOf tOf : ρ → String) : IsTotal ρ (dateTimeLe dOf tOf) := by
  constructor
  intro a b
  rcases listCharLt_trichotomy (dOf a).data (dOf b).data with h | h | h
  · exact Or.inl (Or.inl h)
  · have hd : dOf a = dOf b := string_data_eq h
    rcases listCharLe_total (tOf a).data (tOf b).data with h2 | h2
    · exact Or.inl (Or.inr ⟨hd, h2⟩)
    · exact Or.inr (Or.inr ⟨hd.symm, h2⟩)
  · exact Or.inr (Or.inl h)

instance {ρ : Type} (dOf tOf : ρ → String) : IsTrans ρ (dateTimeLe dOf tOf) := by
  constructor
  intro a b c hab hbc
  rcases hab with h1 | ⟨h1, h1t⟩
  · rcases hbc with h2 | ⟨h2, _⟩
    · exact Or.inl (listCharLt_trans _ _ _ h1 h2)
    · exact Or.inl (h2 ▸ h1)
  · rcases hbc with h2 | ⟨h2, h2t⟩
    · exact Or.inl (h1 ▸ h2)
    · exact Or.inr ⟨h1.trans h2, listCharLe_trans _ _ _ h1t h2t⟩

instance {ρ : Type} (dOf tOf : ρ → String) : IsTotal ρ (dateTimeGe dOf tOf) :=
  ⟨fun a b => IsTotal.total (r := dateTimeLe dOf tOf) b a⟩

instance {ρ : Type} (dOf tOf : ρ → String) : IsTrans ρ (dateTimeGe dOf tOf) :=
  ⟨fun a b c hab hbc => IsTrans.trans (r := dateTimeLe dOf tOf) c b a hbc hab⟩

/-! ### `customerDb` -/

/-- Input of `customerDb.create`
(`Omit<Customer, 'id' | 'visitCount' | 'totalSpent' | 'lastVisit'>`). -/
structure CustomerInput where
  name : String
  phone : String
  email : Option String
  gender : String
  preferredServices : List String
  notes : Option String
  photo : Option String
deriving DecidableEq

/-- `Partial<Customer>` as consumed by `customerDb.update`: `some v`
means the field is present on the object. -/
structure CustomerUpdates where
  name : Option String
  phone : Option String
  email : Option String
  gender : Option String
  visitCount : Option Int
  totalSpent : Option Rat
  lastVisit : Option String
  preferredServices : Option (List String)
  notes : Option String
  photo : Option String
deriving DecidableEq

/-- A `Partial<Customer>` with every field absent. -/
def noCustomerUpdates : CustomerUpdates :=
  { name := none, phone := none, email := none, gender := none
    visitCount := none, totalSpent := none, lastVisit := none
    preferredServices := none, notes := none, photo := none }

/-- `customerDb.getAll`: `SELECT * FROM customers ORDER BY name`,
then the row-to-record mapping. -/
def customerDb_getAll (s : DbState) : Except String (List Customer) :=
  decodeAll decodeCustomerRow
    (List.insertionSort (nameLe CustomerRow.name) s.customers)

/-- `customerDb.getById`: point lookup, `null` (here `none`) when no row
matches. -/
def customerDb_getById (id : String) (s : DbState) : Except String (Option Customer) :=
  match s.customers.find? (fun r => decide (r.id = id)) with
  | none => .ok none
  | some r => (decodeCustomerRow r).map some

/-- The row inserted by `customerDb.create` (`visit_count`/`total_spent`
are the literal `0`s of the INSERT; `created_at`/`updated_at` take the
store's `CURRENT_TIMESTAMP`, passed as `dbNow`). -/
def customerCreateRow (inp : CustomerInput) (nowMs : Nat) (nowIso dbNow : String) :
    CustomerRow :=
  { id := "cust-" ++ toString nowMs
    name := inp.name, phone := inp.phone, email := inp.email
    gender := inp.gender, visit_count := 0, total_spent := 0
    last_visit := some nowIso
    preferred_services := some (encodeStrList inp.preferredServices)
    notes := some (jsOr inp.notes "")
    photo := inp.photo
    created_at := dbNow, updated_at := dbNow }

/-- `customerDb.create`: inserts the row and returns
`{...customer, id, visitCount: 0, totalSpent: 0, lastVisit: now}` —
note the returned record spreads the *input* `notes`, not the
`customer.notes || ''` that was stored. -/
def customerDb_create (inp : CustomerInput) (nowMs : Nat) (nowIso dbNow : String)
    (s : DbState) : Customer × DbState :=
  ({ id := "cust-" ++ toString nowMs
     name := inp.name, phone := inp.phone, email := inp.email
     gender := inp.gender, visitCount := 0, totalSpent := 0
     lastVisit := some nowIso
     preferredServices := inp.preferredServices
     notes := inp.notes, photo := inp.photo },
   { s with customers := s.customers ++ [customerCreateRow inp nowMs nowIso dbNow] })

/-- Net effect of the `UPDATE customers SET …` built by
`customerDb.update` on a matching row.  Fields guarded by
`if (updates.x)` (name, phone, gender, lastVisit) are assigned only when
present *and* truthy; fields guarded by `!== undefined` (email,
visitCount, totalSpent, notes, photo) are assigned whenever present;
`preferredServices` is an array, truthy whenever present; `updated_at`
is always assigned. -/
def applyCustomerUpdates (u : CustomerUpdates) (nowIso : String) (r : CustomerRow) :
    CustomerRow :=
  { id := r.id
    name := match u.name with
      | some v => if v = "" then r.name else v
      | none => r.name
    phone := match u.phone with
      | some v => if v = "" then r.phone else v
      | none => r.phone
    email := match u.email with
      | some v => some v
      | none => r.email
    gender := match u.gender with
      | some v => if v = "" then r.gender else v
      | none => r.gender
    visit_count := match u.visitCount with
      | some v => v
      | none => r.visit_count
    total_spent := match u.totalSpent with
      | some v => v
      | none => r.total_spent
    last_visit := match u.lastVisit with
      | some v => if v = "" then r.last_visit else some v
      | none => r.last_visit
    preferred_services := match u.preferredServices with
      | some v => some (encodeStrList v)
      | none => r.preferred_services
    notes := match u.notes with
      | some v => some v
      | none => r.notes
    photo := match u.photo with
      | some v => some v
      | none => r.photo
    created_at := r.created_at
    updated_at := nowIso }

/-- `customerDb.update`: `UPDATE customers SET … WHERE id = ?`;
non-matching rows are untouched, a missing id affects zero rows. -/
def customerDb_update (id : String) (u : CustomerUpdates) (nowIso : String)
    (s : DbState) : DbState :=
  { s with customers :=
      s.customers.map (fun r => if r.id = id then applyCustomerUpdates u nowIso r else r) }

/-- `customerDb.delete`: `DELETE FROM customers WHERE id = ?`. -/
def customerDb_delete (id : String) (s : DbState) : DbState :=
  { s with customers := s.customers.filter (fun r => !decide (r.id = id)) }

/-! ### `employeeDb` -/

/-- Input of `employeeDb.create` (`Omit<Employee, 'id'>`; the `||` and
`?.` guards in the INSERT show which fields may be absent). -/
structure EmployeeInput where
  name : String
  role : String
  email : Option String
  phone : Option String
  photo : Option String
  available : Bool
  specialties : Option (List String)
  rating : Option Rat
  nextAvailable : Option String
  workingHours : Option WorkingHours
deriving DecidableEq

/-- The record returned by `employeeDb.create`: `{ ...employee, id }` —
just the input fields plus the generated id, with none of the stored
defaults materialized. -/
structure CreatedEmployee where
  id : String
  name : String
  role : String
  email : Option String
  phone : Option String
  photo : Option String
  available : Bool
  specialties : Option (List String)
  rating : Option Rat
  nextAvailable : Option String
  workingHours : Option WorkingHours
deriving DecidableEq

/-- `employeeDb.getAll`: `SELECT * FROM employees ORDER BY name` plus the
row-to-record mapping. -/
def employeeDb_getAll (s : DbState) : Except String (List Employee) :=
  decodeAll decodeEmployeeRow
    (List.insertionSort (nameLe EmployeeRow.name) s.employees)

/-- The row inserted by `employeeDb.create`, with its `||`-defaults. -/
def employeeCreateRow (inp : EmployeeInput) (nowMs : Nat) (dbNow : String) :
    EmployeeRow :=
  { id := "emp-" ++ toString nowMs
    name := inp.name, role := inp.role
    email := some (jsOr inp.email "")
    phone := some (jsOr inp.phone "")
    photo := inp.photo
    available := if inp.available then 1 else 0
    specialties := some (encodeStrList (inp.specialties.getD []))
    rating := jsRatOr inp.rating 5
    next_available := some (jsOr inp.nextAvailable "Now")
    working_hours_start := jsOr (inp.workingHours.map WorkingHours.start) "09:00"
    working_hours_end := jsOr (inp.workingHours.map WorkingHours.endTime) "18:00"
    created_at := dbNow, updated_at := dbNow }

/-- `employeeDb.create`: inserts the defaulted row but returns only
`{ ...employee, id }`. -/
def employeeDb_create (inp : EmployeeInput) (nowMs : Nat) (dbNow : String)
    (s : DbState) : CreatedEmployee × DbState :=
  ({ id := "emp-" ++ toString nowMs
     name := inp.name, role := inp.role, email := inp.email
     phone := inp.phone, photo := inp.photo, available := inp.available
     specialties := inp.specialties, rating := inp.rating
     nextAvailable := inp.nextAvailable, workingHours := inp.workingHours },
   { s with employees := s.employees ++ [employeeCreateRow inp nowMs dbNow] })

/-! ### `serviceDb` and `productDb` (raw-row repositories) -/

/-- `serviceDb.getAll`: `SELECT * FROM services ORDER BY name`, returning
the raw rows (no field mapping in the source). -/
def serviceDb_getAll (s : DbState) : List ServiceRow :=
  List.insertionSort (nameLe ServiceRow.name) s.services

/-- `productDb.getAll`: `SELECT * FROM products ORDER BY name`, returning
the raw rows. -/
def productDb_getAll (s : DbState) : List ProductRow :=
  List.insertionSort (nameLe ProductRow.name) s.products

/-! ### `appointmentDb` -/

/-- The update object consumed by `appointmentDb.update` (`status` is
truthy-guarded; `notes` and `total` use `!== undefined`). -/
structure AppointmentUpdates where
  status : Option String
  notes : Option String
  total : Option Rat
deriving DecidableEq

/-- An update object with every field absent. -/
def noAppointmentUpdates : AppointmentUpdates :=
  { status := none, notes := none, total := none }

/-- `appointmentDb.getAll`: `SELECT * FROM appointments ORDER BY date,
time` plus the row-to-record mapping. -/
def appointmentDb_getAll (s : DbState) : Except String (List Appointment) :=
  decodeAll decodeAppointmentRow
    (List.insertionSort (dateTimeLe AppointmentRow.date AppointmentRow.time)
      s.appointments)

/-- Net effect of the `UPDATE appointments SET …` built by
`appointmentDb.update` on a matching row. -/
def applyAppointmentUpdates (u : AppointmentUpdates) (nowIso : String)
    (r : AppointmentRow) : AppointmentRow :=
  { id := r.id, customer_id := r.customer_id, employee_id := r.employee_id
    service_ids := r.service_ids, date := r.date, time := r.time
    status := match u.status with
      | some v => if v = "" then r.status else v
      | none => r.status
    total := match u.total with
      | some v => v
      | none => r.total
    notes := match u.notes with
      | some v => some v
      | none => r.notes
    created_at := r.created_at
    updated_at := nowIso }

/-- `appointmentDb.update`. -/
def appointmentDb_update (id : String) (u : AppointmentUpdates) (nowIso : String)
    (s : DbState) : DbState :=
  { s with appointments :=
      s.appointments.map (fun r =>
        if r.id = id then applyAppointmentUpdates u nowIso r else r) }

/-! ### `tallyDb` -/

/-- Input of `tallyDb.create`
(`Omit<TallyItem, 'id' | 'paymentDate' | 'upiTransactionId'>`). -/
structure TallyInput where
  date : String
  time : String
  customerName : String
  customerPhone : String
  staffName : String
  services : List String
  totalCost : Rat
  paymentMethod : String
  paymentStatus : String
deriving DecidableEq

/-- `tallyDb.getAll`: `SELECT * FROM tally_items ORDER BY date DESC,
time DESC` plus the row-to-record mapping. -/
def tallyDb_getAll (s : DbState) : Except String (List TallyItem) :=
  decodeAll decodeTallyRow
    (List.insertionSort (dateTimeGe TallyRow.date TallyRow.time) s.tally_items)

/-- The row inserted by `tallyDb.create`: `payment_date` is stamped to
the current time, `payment_status` is stored exactly as supplied, and
`upi_transaction_id` is not in the INSERT's column list, so it is NULL. -/
def tallyCreateRow (inp : TallyInput) (nowMs : Nat) (nowIso dbNow : String) :
    TallyRow :=
  { id := "tally-" ++ toString nowMs
    date := inp.date, time := inp.time
    customer_name := inp.customerName, customer_phone := inp.customerPhone
    staff_name := inp.staffName
    services := encodeStrList inp.services
    total_cost := inp.totalCost
    payment_method := inp.paymentMethod
    payment_status := inp.paymentStatus
    payment_date := some nowIso
    upi_transaction_id := none
    created_at := dbNow, updated_at := dbNow }

/-- `tallyDb.create`: inserts the row and returns
`{ ...item, id, paymentDate, upiTransactionId: undefined }`. -/
def tallyDb_create (inp : TallyInput) (nowMs : Nat) (nowIso dbNow : String)
    (s : DbState) : TallyItem × DbState :=
  ({ id := "tally-" ++ toString nowMs
     date := inp.date, time := inp.time
     customerName := inp.customerName, customerPhone := inp.customerPhone
     staffName := inp.staffName, services := inp.services
     totalCost := inp.totalCost, paymentMethod := inp.paymentMethod
     paymentStatus := inp.paymentStatus
     paymentDate := some nowIso
     upiTransactionId := none },
   { s with tally_items := s.tally_items ++ [tallyCreateRow inp nowMs nowIso dbNow] })

/-- `tallyDb.updatePaymentStatus`: `UPDATE tally_items SET
payment_status = ?, upi_transaction_id = ?, updated_at = ? WHERE id = ?`
with `upiTransactionId || null` as the second binding — the column is
written unconditionally. -/
def tallyDb_updatePaymentStatus (id status : String) (upiTransactionId : Option String)
    (nowIso : String) (s : DbState) : DbState :=
  { s with tally_items :=
      s.tally_items.map (fun r =>
        if r.id = id then
          { r with payment_status := status
                   upi_transaction_id := jsOrNull upiTransactionId
                   updated_at := nowIso }
        else r) }

/-! ### Seeding (`insertInitialData`) -/

/-- Seed service record shape used by `insertInitialData`. -/
structure MockService where
  id : String
  name : String
  duration : Int
  price : Rat
  category : String
  description : Option String
deriving DecidableEq

/-- Seed product record shape used by `insertInitialData`. -/
structure MockProduct where
  id : String
  name : String
  price : Rat
  image : Option String
  category : String
  stock : Int
  description : Option String
  brand : Option String
deriving DecidableEq

/-- Seed employee record shape: `insertInitialData` reads these fields
directly (no `||` defaults) and hard-codes `email`/`phone` to `''`. -/
structure MockEmployee where
  id : String
  name : String
  role : String
  photo : Option String
  available : Bool
  specialties : List String
  rating : Rat
  nextAvailable : Option String
  workingHours : WorkingHours
deriving DecidableEq

/-- The external seed dataset (`../data/mockData`, outside this layer). -/
structure SeedData where
  mockCustomers : List Customer
  mockEmployees : List MockEmployee
  mockServices : List MockService
  mockProducts : List MockProduct

/-- Row built by the seed `insertCustomer.run(...)` call. -/
def seedCustomerRow (dbNow : String) (c : Customer) : CustomerRow :=
  { id := c.id, name := c.name, phone := c.phone, email := c.email
    gender := c.gender, visit_count := c.visitCount, total_spent := c.totalSpent
    last_visit := c.lastVisit
    preferred_services := some (encodeStrList c.preferredServices)
    notes := c.notes, photo := c.photo
    created_at := dbNow, updated_at := dbNow }

/-- Row built by the seed `insertEmployee.run(...)` call (`email` and
`phone` are seeded as empty strings — not in the mock data). -/
def seedEmployeeRow (dbNow : String) (e : MockEmployee) : EmployeeRow :=
  { id := e.id, name := e.name, role := e.role
    email := some "", phone := some ""
    photo := e.photo
    available := if e.available then 1 else 0
    specialties := some (encodeStrList e.specialties)
    rating := e.rating
    next_available := e.nextAvailable
    working_hours_start := e.workingHours.start
    working_hours_end := e.workingHours.endTime
    created_at := dbNow, updated_at := dbNow }

/-- Row built by the seed `insertService.run(...)` call. -/
def seedServiceRow (dbNow : String) (sv : MockService) : ServiceRow :=
  { id := sv.id, name := sv.name, duration := sv.duration, price := sv.price
    category := sv.category, description := sv.description
    created_at := dbNow, updated_at := dbNow }

/-- Row built by the seed `insertProduct.run(...)` call. -/
def seedProductRow (dbNow : String) (p : MockProduct) : ProductRow :=
  { id := p.id, name := p.name, price := p.price, image := p.image
    category := p.category, stock := p.stock, description := p.description
    brand := p.brand
    created_at := dbNow, updated_at := dbNow }

/-- `insertInitialData`: if `SELECT COUNT(*) FROM customers` is zero,
insert the four seed collections (customers, employees, services,
products) and nothing else; otherwise do nothing. -/
def insertInitialData (seed : SeedData) (dbNow : String) (s : DbState) : DbState :=
  if s.customers.length = 0 then
    { s with
        customers := s.customers ++ seed.mockCustomers.map (seedCustomerRow dbNow)
        employees := s.employees ++ seed.mockEmployees.map (seedEmployeeRow dbNow)
        services := s.services ++ seed.mockServices.map (seedServiceRow dbNow)
        products := s.products ++ seed.mockProducts.map (seedProductRow dbNow) }
  else s

/-! ### Operation inventory of the six repositories -/

/-- Which of the common operations a repository object defines
(plus the one named special operation, `updatePaymentStatus`). -/
structure RepoOps where
  hasGetAll : Bool
  hasGetById : Bool
  hasCreate : Bool
  hasUpdate : Bool
  hasDelete : Bool
  hasUpdatePaymentStatus : Bool
deriving DecidableEq

/-- `customerDb` defines getAll, getById, create, update, delete. -/
def customerOps : RepoOps :=
  { hasGetAll := true, hasGetById := true, hasCreate := true
    hasUpdate := true, hasDelete := true, hasUpdatePaymentStatus := false }

/-- `employeeDb` defines getAll, create, update, delete — no getById. -/
def employeeOps : RepoOps :=
  { hasGetAll := true, hasGetById := false, hasCreate := true
    hasUpdate := true, hasDelete := true, hasUpdatePaymentStatus := false }

/-- `serviceDb` defines getAll, create, update, delete — no getById. -/
def serviceOps : RepoOps :=
  { hasGetAll := true, hasGetById := false, hasCreate := true
    hasUpdate := true, hasDelete := true, hasUpdatePaymentStatus := false }

/-- `appointmentDb` defines getAll, create, update — no getById, no delete. -/
def appointmentOps : RepoOps :=
  { hasGetAll := true, hasGetById := false, hasCreate := true
    hasUpdate := true, hasDelete := false, hasUpdatePaymentStatus := false }

/-- `tallyDb` defines getAll, create and updatePaymentStatus — no getById,
no generic update, no delete. -/
def tallyOps : RepoOps :=
  { hasGetAll := true, hasGetById := false, hasCreate := true
    hasUpdate := false, hasDelete := false, hasUpdatePaymentStatus := true }

/-- `productDb` defines getAll, create, update, delete — no getById. -/
def productOps : RepoOps :=
  { hasGetAll := true, hasGetById := false, hasCreate := true
    hasUpdate := true, hasDelete := true, hasUpdatePaymentStatus := false }

/-- The six entity repositories, in the order they appear in the source. -/
def salonRepos : List RepoOps :=
  [customerOps, employeeOps, appointmentOps, tallyOps, serviceOps, productOps]

/-- The common five-operation shape claimed for every repository. -/
def hasCrudShape (o : RepoOps) : Prop :=
  o.hasGetAll = true ∧ o.hasGetById = true ∧ o.hasCreate = true ∧
  o.hasUpdate = true ∧ o.hasDelete = true

instance (o : RepoOps) : Decidable (hasCrudShape o) := by
  unfold hasCrudShape
  infer_instance

/-! ### Helper lemmas -/

instance {ε α : Type} [DecidableEq ε] [DecidableEq α] : DecidableEq (Except ε α) :=
  fun a b =>
    match a, b with
    | .error e1, .error e2 =>
      if h : e1 = e2 then isTrue (by rw [h])
      else isFalse (by intro hc; cases hc; exact h rfl)
    | .error _, .ok _ => isFalse (by intro hc; cases hc)
    | .ok _, .error _ => isFalse (by intro hc; cases hc)
    | .ok v1, .ok v2 =>
      if h : v1 = v2 then isTrue (by rw [h])
      else isFalse (by intro hc; cases hc; exact h rfl)

theorem decodeAll_ok_of_forall {ρ ι : Type} (dec : ρ → Except String ι) (f : ρ → ι)
    (rs : List ρ) (h : ∀ r ∈ rs, dec r = .ok (f r)) :
    decodeAll dec rs = .ok (rs.map f) := by
  induction rs with
  | nil => rfl
  | cons r rs ih =>
    have h1 := h r (by simp)
    have h2 : ∀ x ∈ rs, dec x = .ok (f x) := fun x hx => h x (by simp [hx])
    simp [decodeAll, h1, ih h2]

theorem decodeAll_ok_eq_map {ρ ι : Type} (dec : ρ → Except String ι) (f : ρ → ι)
    (hdet : ∀ r it, dec r = .ok it → it = f r) :
    ∀ (rs : List ρ) (l : List ι), decodeAll dec rs = .ok l → l = rs.map f := by
  intro rs
  induction rs with
  | nil =>
    intro l h
    simp only [decodeAll] at h
    cases h
    rfl
  | cons r rs ih =>
    intro l h
    simp only [decodeAll] at h
    cases hd : dec r with
    | error e => rw [hd] at h; cases h
    | ok it =>
      rw [hd] at h
      cases hall : decodeAll dec rs with
      | error e => rw [hall] at h; cases h
      | ok l2 =>
        rw [hall] at h
        cases h
        rw [List.map_cons, ← hdet r it hd, ← ih l2 hall]

theorem decodeCustomerRow_det (r : CustomerRow) (it : Customer)
    (h : decodeCustomerRow r = .ok it) : it = pureDecodeCustomerRow r := by
  unfold decodeCustomerRow at h
  cases hp : parseStrList (jsOr r.preferred_services "[]") with
  | none => rw [hp] at h; cases h
  | some l =>
    rw [hp] at h
    cases h
    simp [pureDecodeCustomerRow, hp]

theorem decodeCustomerRow_of_parse (r : CustomerRow)
    (h : (parseStrList (jsOr r.preferred_services "[]")).isSome) :
    decodeCustomerRow r = .ok (pureDecodeCustomerRow r) := by
  unfold decodeCustomerRow pureDecodeCustomerRow
  cases hp : parseStrList (jsOr r.preferred_services "[]") with
  | none => rw [hp] at h; simp at h
  | some l => simp [hp]

theorem decodeEmployeeRow_det (r : EmployeeRow) (it : Employee)
    (h : decodeEmployeeRow r = .ok it) : it = pureDecodeEmployeeRow r := by
  unfold decodeEmployeeRow at h
  cases hp : parseStrList (jsOr r.specialties "[]") with
  | none => rw [hp] at h; cases h
  | some l =>
    rw [hp] at h
    cases h
    simp [pureDecodeEmployeeRow, hp]

theorem decodeAppointmentRow_det (r : AppointmentRow) (it : Appointment)
    (h : decodeAppointmentRow r = .ok it) : it = pureDecodeAppointmentRow r := by
  unfold decodeAppointmentRow at h
  cases hp : parseStrList r.service_ids with
  | none => rw [hp] at h; cases h
  | some l =>
    rw [hp] at h
    cases h
    simp [pureDecodeAppointmentRow, hp]

theorem decodeTallyRow_det (r : TallyRow) (it : TallyItem)
    (h : decodeTallyRow r = .ok it) : it = pureDecodeTallyRow r := by
  unfold decodeTallyRow at h
  cases hp : parseStrList r.services with
  | none => rw [hp] at h; cases h
  | some l =>
    rw [hp] at h
    cases h
    simp [pureDecodeTallyRow, hp]

theorem decodeTallyRow_of_parse (r : TallyRow)
    (h : (parseStrList r.services).isSome) :
    decodeTallyRow r = .ok (pureDecodeTallyRow r) := by
  unfold decodeTallyRow pureDecodeTallyRow
  cases hp : parseStrList r.services with
  | none => rw [hp] at h; simp at h
  | some l => simp [hp]

/-! ### Concrete sample data for counterexamples and witnesses -/

/-- Customer create input from the spec's example scenario, with `notes`
and `photo` omitted. -/
def ashaInput : CustomerInput :=
  { name := "Asha", phone := "9990001111", email := none, gender := "female"
    preferredServices := ["svc-1"], notes := none, photo := none }

/-- The same input with `notes` present. -/
def ashaInputNoted : CustomerInput :=
  { name := "Asha", phone := "9990001111", email := none, gender := "female"
    preferredServices := ["svc-1"], notes := some "vip", photo := none }

/-- A sample stored customer row. -/
def bobRow : CustomerRow :=
  { id := "c1", name := "Bob", phone := "111", email := some "b@x", gender := "male"
    visit_count := 3, total_spent := 40, last_visit := some "L"
    preferred_services := some (encodeStrList ["s1"]), notes := some "n"
    photo := none, created_at := "D", updated_at := "D" }

/-- A sample stored tally row with a transaction id already present. -/
def tallyRowOld : TallyRow :=
  { id := "t1", date := "2024-01-01", time := "10:00", customer_name := "A"
    customer_phone := "1", staff_name := "S", services := encodeStrList ["cut"]
    total_cost := 10, payment_method := "upi", payment_status := "pending"
    payment_date := some "P", upi_transaction_id := some "OLD"
    created_at := "D", updated_at := "D" }

/-! ### Claim C1 -/

/-- Claim C1, as stated, is false: it is refuted on the spec's own example
scenario.  Creating the example customer with `notes` omitted and reading
it back by the generated id does not return the record `create` returned —
`create` stored `customer.notes || ''` (the empty string) but spread the
untouched input into its return value, so the read-back record carries
`notes = some ""` while the returned record has `notes = none`. -/
theorem customer_roundtrip_cex :
    customerDb_getById "cust-100" (customerDb_create ashaInput 100 "T0" "D0" emptyDb).2
        ≠ .ok (some (customerDb_create ashaInput 100 "T0" "D0" emptyDb).1) ∧
    customerDb_getById "cust-100" (customerDb_create ashaInput 100 "T0" "D0" emptyDb).2
        = .ok (some { (customerDb_create ashaInput 100 "T0" "D0" emptyDb).1 with
                        notes := some "" }) ∧
    (customerDb_create ashaInput 100 "T0" "D0" emptyDb).1.notes = none := by
  refine ⟨by decide, by decide, by decide⟩

/-- Claim C1 (amended): for the customer repository, `create` followed by
`getById` on the generated id returns exactly the record `create`
returned — including the JSON-decoded `preferredServices` in their
original order — provided the generated id is fresh and `notes` was
present in the input; when `notes` is omitted the read-back record
differs from `create`'s return value exactly by `notes` reading back as
the empty string (see `customer_roundtrip_cex`). -/
theorem customer_roundtrip (inp : CustomerInput) (nowMs : Nat)
    (nowIso dbNow : String) (s : DbState)
    (hfresh : ∀ r ∈ s.customers, r.id ≠ "cust-" ++ toString nowMs)
    (hnotes : inp.notes.isSome) :
    customerDb_getById ("cust-" ++ toString nowMs)
        (customerDb_create inp nowMs nowIso dbNow s).2
      = .ok (some (customerDb_create inp nowMs nowIso dbNow s).1) := by
  have hfind1 : s.customers.find? (fun r => decide (r.id = "cust-" ++ toString nowMs))
      = none :=
    List.find?_eq_none.mpr (fun r hr => by simpa using hfresh r hr)
  cases hn : inp.notes with
  | none => rw [hn] at hnotes; simp at hnotes
  | some v =>
    have hjs : (if v = "" then "" else v) = v := by
      by_cases hv : v = ""
      · rw [if_pos hv, hv]
      · rw [if_neg hv]
    simp [customerDb_getById, customerDb_create, List.find?_append, hfind1,
          customerCreateRow, decodeCustomerRow, jsOr, Except.map,
          encodeStrList_ne_empty inp.preferredServices,
          parseStrList_encode inp.preferredServices, hn, hjs]

/-- Witness for `customer_roundtrip` at the spec's example input with
`notes` supplied. -/
theorem customer_roundtrip_witness :
    customerDb_getById "cust-100"
        (customerDb_create ashaInputNoted 100 "T0" "D0" emptyDb).2
      = .ok (some (customerDb_create ashaInputNoted 100 "T0" "D0" emptyDb).1) :=
  customer_roundtrip ashaInputNoted 100 "T0" "D0" emptyDb
    (by decide) (by decide)

/-! ### Claim C2 -/

/-- The partial update used to refute claim C2: `name` present but equal
to the empty string. -/
def emptyNameUpdate : CustomerUpdates :=
  { noCustomerUpdates with name := some "" }

/-- Claim C2, as stated, is false: `customerDb.update` guards `name` with
a truthiness check (`if (updates.name)`), so an input in which `name` is
present with the empty-string value produces no `name = ?` assignment —
the stored name stays `"Bob"` instead of becoming `""`. -/
theorem partial_update_cex :
    (customerDb_update "c1" emptyNameUpdate "T1"
        { emptyDb with customers := [bobRow] }).customers.map CustomerRow.name
      = ["Bob"] ∧
    emptyNameUpdate.name = some "" ∧ ("Bob" : String) ≠ "" := by
  refine ⟨by decide, by decide, by decide⟩

/-- Claim C2 (amended): in `customerDb.update` and `appointmentDb.update`,
a field guarded by `!== undefined` (email, visitCount, totalSpent, notes,
photo; appointment notes, total) is assigned whenever present — even with
a falsy value — while a truthiness-guarded field (name, phone, gender,
lastVisit; appointment status) is assigned only when present and
non-empty and is left unchanged when present with the empty string;
`preferredServices`, an array, is assigned whenever present; every field
absent from the input is unchanged; `updated_at` is always stamped; an
empty partial input changes `updated_at` only; rows whose id differs are
untouched. -/
theorem partial_update_semantics (u : CustomerUpdates) (ua : AppointmentUpdates)
    (nowIso : String) (r : CustomerRow) (ra : AppointmentRow) :
    ((u.name = none ∨ u.name = some "") →
      (applyCustomerUpdates u nowIso r).name = r.name) ∧
    (∀ v, u.name = some v → v ≠ "" → (applyCustomerUpdates u nowIso r).name = v) ∧
    ((u.phone = none ∨ u.phone = some "") →
      (applyCustomerUpdates u nowIso r).phone = r.phone) ∧
    (∀ v, u.phone = some v → v ≠ "" → (applyCustomerUpdates u nowIso r).phone = v) ∧
    ((u.gender = none ∨ u.gender = some "") →
      (applyCustomerUpdates u nowIso r).gender = r.gender) ∧
    (∀ v, u.gender = some v → v ≠ "" → (applyCustomerUpdates u nowIso r).gender = v) ∧
    ((u.lastVisit = none ∨ u.lastVisit = some "") →
      (applyCustomerUpdates u nowIso r).last_visit = r.last_visit) ∧
    (∀ v, u.lastVisit = some v → v ≠ "" →
      (applyCustomerUpdates u nowIso r).last_visit = some v) ∧
    (u.email = none → (applyCustomerUpdates u nowIso r).email = r.email) ∧
    (∀ v, u.email = some v → (applyCustomerUpdates u nowIso r).email = some v) ∧
    (u.visitCount = none →
      (applyCustomerUpdates u nowIso r).visit_count = r.visit_count) ∧
    (∀ v, u.visitCount = some v → (applyCustomerUpdates u nowIso r).visit_count = v) ∧
    (u.totalSpent = none →
      (applyCustomerUpdates u nowIso r).total_spent = r.total_spent) ∧
    (∀ v, u.totalSpent = some v → (applyCustomerUpdates u nowIso r).total_spent = v) ∧
    (u.notes = none → (applyCustomerUpdates u nowIso r).notes = r.notes) ∧
    (∀ v, u.notes = some v → (applyCustomerUpdates u nowIso r).notes = some v) ∧
    (u.photo = none → (applyCustomerUpdates u nowIso r).photo = r.photo) ∧
    (∀ v, u.photo = some v → (applyCustomerUpdates u nowIso r).photo = some v) ∧
    (u.preferredServices = none →
      (applyCustomerUpdates u nowIso r).preferred_services = r.preferred_services) ∧
    (∀ v, u.preferredServices = some v →
      (applyCustomerUpdates u nowIso r).preferred_services
        = some (encodeStrList v)) ∧
    (applyCustomerUpdates u nowIso r).updated_at = nowIso ∧
    (applyCustomerUpdates u nowIso r).id = r.id ∧
    (applyCustomerUpdates u nowIso r).created_at = r.created_at ∧
    applyCustomerUpdates noCustomerUpdates nowIso r = { r with updated_at := nowIso } ∧
    ((ua.status = none ∨ ua.status = some "") →
      (applyAppointmentUpdates ua nowIso ra).status = ra.status) ∧
    (∀ v, ua.status = some v → v ≠ "" →
      (applyAppointmentUpdates ua nowIso ra).status = v) ∧
    (ua.notes = none → (applyAppointmentUpdates ua nowIso ra).notes = ra.notes) ∧
    (∀ v, ua.notes = some v → (applyAppointmentUpdates ua nowIso ra).notes = some v) ∧
    (ua.total = none → (applyAppointmentUpdates ua nowIso ra).total = ra.total) ∧
    (∀ v, ua.total = some v → (applyAppointmentUpdates ua nowIso ra).total = v) ∧
    (applyAppointmentUpdates ua nowIso ra).updated_at = nowIso ∧
    applyAppointmentUpdates noAppointmentUpdates nowIso ra
      = { ra with updated_at := nowIso } ∧
    (∀ id s, ∀ rr ∈ s.customers, rr.id ≠ id →
      rr ∈ (customerDb_update id u nowIso s).customers) := by
  refine ⟨?_, ?_, ?_, ?_, ?_, ?_, ?_, ?_, ?_, ?_, ?_, ?_, ?_, ?_, ?_, ?_, ?_, ?_,
          ?_, ?_, ?_, ?_, ?_, ?_, ?_, ?_, ?_, ?_, ?_, ?_, ?_, ?_, ?_⟩
  · rintro (h | h) <;> simp [applyCustomerUpdates, h]
  · intro v hv hne; simp [applyCustomerUpdates, hv, hne]
  · rintro (h | h) <;> simp [applyCustomerUpdates, h]
  · intro v hv hne; simp [applyCustomerUpdates, hv, hne]
  · rintro (h | h) <;> simp [applyCustomerUpdates, h]
  · intro v hv hne; simp [applyCustomerUpdates, hv, hne]
  · rintro (h | h) <;> simp [applyCustomerUpdates, h]
  · intro v hv hne; simp [applyCustomerUpdates, hv, hne]
  · intro h; simp [applyCustomerUpdates, h]
  · intro v hv; simp [applyCustomerUpdates, hv]
  · intro h; simp [applyCustomerUpdates, h]
  · intro v hv; simp [applyCustomerUpdates, hv]
  · intro h; simp [applyCustomerUpdates, h]
  · intro v hv; simp [applyCustomerUpdates, hv]
  · intro h; simp [applyCustomerUpdates, h]
  · intro v hv; simp [applyCustomerUpdates, hv]
  · intro h; simp [applyCustomerUpdates, h]
  · intro v hv; simp [applyCustomerUpdates, hv]
  · intro h; simp [applyCustomerUpdates, h]
  · intro v hv; simp [applyCustomerUpdates, hv]
  · simp [applyCustomerUpdates]
  · simp [applyCustomerUpdates]
  · simp [applyCustomerUpdates]
  · simp [applyCustomerUpdates, noCustomerUpdates]
  · rintro (h | h) <;> simp [applyAppointmentUpdates, h]
  · intro v hv hne; simp [applyAppointmentUpdates, hv, hne]
  · intro h; simp [applyAppointmentUpdates, h]
  · intro v hv; simp [applyAppointmentUpdates, hv]
  · intro h; simp [applyAppointmentUpdates, h]
  · intro v hv; simp [applyAppointmentUpdates, hv]
  · simp [applyAppointmentUpdates]
  · simp [applyAppointmentUpdates, noAppointmentUpdates]
  · intro id s rr hmem hne
    simp only [customerDb_update]
    exact List.mem_map.mpr ⟨rr, hmem, by simp [hne]⟩

/-- Witness for `partial_update_semantics`: a concrete update in which
`email` is present with a falsy-typed value and `name` is present but
empty. -/
theorem partial_update_semantics_witness :
    (applyCustomerUpdates emptyNameUpdate "T1" bobRow).name = bobRow.name ∧
    (applyCustomerUpdates
        { noCustomerUpdates with email := some "" } "T1" bobRow).email = some "" ∧
    (applyCustomerUpdates emptyNameUpdate "T1" bobRow).updated_at = "T1" ∧
    bobRow ∈ (customerDb_update "zzz" emptyNameUpdate "T1"
        { emptyDb with customers := [bobRow] }).customers :=
  ⟨(partial_update_semantics emptyNameUpdate noAppointmentUpdates "T1" bobRow
      { id := "a1", customer_id := "c1", employee_id := "e1", service_ids := "[]"
        date := "d", time := "t", status := "scheduled", total := 0, notes := none
        created_at := "D", updated_at := "D" }).1 (Or.inr rfl),
   ((partial_update_semantics { noCustomerUpdates with email := some "" }
      noAppointmentUpdates "T1" bobRow
      { id := "a1", customer_id := "c1", employee_id := "e1", service_ids := "[]"
        date := "d", time := "t", status := "scheduled", total := 0, notes := none
        created_at := "D", updated_at := "D" }).2.2.2.2.2.2.2.2.2.1 "" rfl),
   (partial_update_semantics emptyNameUpdate noAppointmentUpdates "T1" bobRow
      { id := "a1", customer_id := "c1", employee_id := "e1", service_ids := "[]"
        date := "d", time := "t", status := "scheduled", total := 0, notes := none
        created_at := "D", updated_at := "D"
      }).2.2.2.2.2.2.2.2.2.2.2.2.2.2.2.2.2.2.2.2.1,
   (partial_update_semantics emptyNameUpdate noAppointmentUpdates "T1" bobRow
      { id := "a1", customer_id := "c1", employee_id := "e1", service_ids := "[]"
        date := "d", time := "t", status := "scheduled", total := 0, notes := none
        created_at := "D", updated_at := "D"
      }).2.2.2.2.2.2.2.2.2.2.2.2.2.2.2.2.2.2.2.2.2.2.2.2.2.2.2.2.2.2.2.2
      "zzz" { emptyDb with customers := [bobRow] } bobRow (by decide) (by decide)⟩

/-! ### Claim C3 -/

/-- An employee create input with rating, hours and other optionals
omitted. -/
def bareEmployeeInput : EmployeeInput :=
  { name := "Zoe", role := "stylist", email := none, phone := none
    photo := none, available := true, specialties := none, rating := none
    nextAvailable := none, workingHours := none }

/-- Claim C3, as stated, is false: `employeeDb.create` stores the
defaults (`rating` 5, hours 09:00–18:00) in the inserted row but returns
only `{ ...employee, id }`, so for an input with `rating` omitted the
returned record's `rating` is absent, not the default that claim C3 says
appears in the returned record. -/
theorem create_materialization_cex :
    (employeeDb_create bareEmployeeInput 100 "D0" emptyDb).1.rating = none ∧
    (none : Option Rat) ≠ some 5 ∧
    (employeeDb_create bareEmployeeInput 100 "D0" emptyDb).2.employees.map
        EmployeeRow.rating = [5] ∧
    (employeeDb_create bareEmployeeInput 100 "D0" emptyDb).2.employees.map
        EmployeeRow.working_hours_start = ["09:00"] := by
  refine ⟨by decide, by decide, by decide, by decide⟩

/-- Claim C3 (amended): `create` generates the prefixed id for customer,
employee and tally.  The customer and tally records returned by `create`
are fully materialized (`visitCount = 0`, `totalSpent = 0`, stamped
`lastVisit`; tally `paymentDate` stamped, `upiTransactionId` absent).
For employees the defaults (`rating` 5, working hours 09:00–18:00) are
applied to the *stored row only*; the record returned by
`employeeDb.create` is just the input plus the generated id, without the
stored defaults (see `create_materialization_cex`). -/
theorem create_materialization (cin : CustomerInput) (ein : EmployeeInput)
    (tin : TallyInput) (nowMs : Nat) (nowIso dbNow : String) (s : DbState) :
    (customerDb_create cin nowMs nowIso dbNow s).1.id = "cust-" ++ toString nowMs ∧
    (customerDb_create cin nowMs nowIso dbNow s).1.visitCount = 0 ∧
    (customerDb_create cin nowMs nowIso dbNow s).1.totalSpent = 0 ∧
    (customerDb_create cin nowMs nowIso dbNow s).1.lastVisit = some nowIso ∧
    (customerDb_create cin nowMs nowIso dbNow s).2.customers
      = s.customers ++ [customerCreateRow cin nowMs nowIso dbNow] ∧
    (customerCreateRow cin nowMs nowIso dbNow).visit_count = 0 ∧
    (customerCreateRow cin nowMs nowIso dbNow).total_spent = 0 ∧
    (employeeDb_create ein nowMs dbNow s).2.employees
      = s.employees ++ [employeeCreateRow ein nowMs dbNow] ∧
    (employeeCreateRow ein nowMs dbNow).id = "emp-" ++ toString nowMs ∧
    (ein.rating = none → (employeeCreateRow ein nowMs dbNow).rating = 5) ∧
    (ein.workingHours = none →
      (employeeCreateRow ein nowMs dbNow).working_hours_start = "09:00" ∧
      (employeeCreateRow ein nowMs dbNow).working_hours_end = "18:00") ∧
    (employeeDb_create ein nowMs dbNow s).1
      = { id := "emp-" ++ toString nowMs, name := ein.name, role := ein.role
          email := ein.email, phone := ein.phone, photo := ein.photo
          available := ein.available, specialties := ein.specialties
          rating := ein.rating, nextAvailable := ein.nextAvailable
          workingHours := ein.workingHours } ∧
    (tallyDb_create tin nowMs nowIso dbNow s).1.id = "tally-" ++ toString nowMs ∧
    (tallyDb_create tin nowMs nowIso dbNow s).1.paymentDate = some nowIso ∧
    (tallyDb_create tin nowMs nowIso dbNow s).1.upiTransactionId = none ∧
    (tallyDb_create tin nowMs nowIso dbNow s).1.paymentStatus = tin.paymentStatus := by
  refine ⟨rfl, rfl, rfl, rfl, rfl, rfl, rfl, rfl, rfl, ?_, ?_, rfl, rfl, rfl, rfl, rfl⟩
  · intro h; simp [employeeCreateRow, jsRatOr, h]
  · intro h; simp [employeeCreateRow, jsOr, h]

/-- Witness for `create_materialization` at concrete inputs with the
optional employee fields omitted. -/
theorem create_materialization_witness :
    (employeeCreateRow bareEmployeeInput 100 "D0").rating = 5 ∧
    (employeeCreateRow bareEmployeeInput 100 "D0").working_hours_start = "09:00" ∧
    (employeeCreateRow bareEmployeeInput 100 "D0").working_hours_end = "18:00" ∧
    (customerDb_create ashaInput 100 "T0" "D0" emptyDb).1.visitCount = 0 :=
  ⟨((create_materialization ashaInput bareEmployeeInput
      { date := "d", time := "t", customerName := "A", customerPhone := "1"
        staffName := "S", services := ["cut"], totalCost := 10
        paymentMethod := "upi", paymentStatus := "pending" }
      100 "T0" "D0" emptyDb).2.2.2.2.2.2.2.2.2.1 rfl),
   ((create_materialization ashaInput bareEmployeeInput
      { date := "d", time := "t", customerName := "A", customerPhone := "1"
        staffName := "S", services := ["cut"], totalCost := 10
        paymentMethod := "upi", paymentStatus := "pending" }
      100 "T0" "D0" emptyDb).2.2.2.2.2.2.2.2.2.2.1 rfl).1,
   ((create_materialization ashaInput bareEmployeeInput
      { date := "d", time := "t", customerName := "A", customerPhone := "1"
        staffName := "S", services := ["cut"], totalCost := 10
        paymentMethod := "upi", paymentStatus := "pending" }
      100 "T0" "D0" emptyDb).2.2.2.2.2.2.2.2.2.2.1 rfl).2,
   ((create_materialization ashaInput bareEmployeeInput
      { date := "d", time := "t", customerName := "A", customerPhone := "1"
        staffName := "S", services := ["cut"], totalCost := 10
        paymentMethod := "upi", paymentStatus := "pending" }
      100 "T0" "D0" emptyDb).2.1)⟩

/-! ### Claim C4 -/

/-- Claim C4 (confirmed): `insertInitialData` seeds exactly when the
customers table row count is zero; in that case the customers, employees,
services and products tables each receive exactly the seed records (via
the per-table INSERT statements) while appointments and tally items are
never touched; on a non-empty database it changes nothing (so a second
bootstrap leaves all row counts unchanged). -/
theorem seeding_iff_empty (seed : SeedData) (dbNow : String) (s : DbState) :
    (s.customers ≠ [] → insertInitialData seed dbNow s = s) ∧
    (s.customers = [] →
      (insertInitialData seed dbNow s).customers
          = seed.mockCustomers.map (seedCustomerRow dbNow) ∧
      (insertInitialData seed dbNow s).employees
          = s.employees ++ seed.mockEmployees.map (seedEmployeeRow dbNow) ∧
      (insertInitialData seed dbNow s).services
          = s.services ++ seed.mockServices.map (seedServiceRow dbNow) ∧
      (insertInitialData seed dbNow s).products
          = s.products ++ seed.mockProducts.map (seedProductRow dbNow) ∧
      (insertInitialData seed dbNow s).appointments = s.appointments ∧
      (insertInitialData seed dbNow s).tally_items = s.tally_items) := by
  constructor
  · intro h
    have hlen : ¬s.customers.length = 0 := by
      intro hc
      exact h (List.length_eq_zero.mp hc)
    simp [insertInitialData, hlen]
  · intro h
    have hlen : s.customers.length = 0 := by rw [h]; rfl
    refine ⟨?_, ?_, ?_, ?_, ?_, ?_⟩ <;> simp [insertInitialData, hlen, h]

/-- A one-customer seed dataset. -/
def seed0 : SeedData :=
  { mockCustomers :=
      [{ id := "mc1", name := "Mia", phone := "222", email := none
         gender := "female", visitCount := 2, totalSpent := 30
         lastVisit := none, preferredServices := ["s2"], notes := none
         photo := none }]
    mockEmployees := [], mockServices := [], mockProducts := [] }

/-- Witness for `seeding_iff_empty`: seeding a non-empty store is the
identity, and seeding the empty store installs exactly the seed
customers and leaves appointments empty. -/
theorem seeding_iff_empty_witness :
    insertInitialData seed0 "D" { emptyDb with customers := [bobRow] }
        = { emptyDb with customers := [bobRow] } ∧
    (insertInitialData seed0 "D" emptyDb).customers
        = seed0.mockCustomers.map (seedCustomerRow "D") ∧
    (insertInitialData seed0 "D" emptyDb).appointments = [] :=
  ⟨(seeding_iff_empty seed0 "D" { emptyDb with customers := [bobRow] }).1
      (by decide),
   ((seeding_iff_empty seed0 "D" emptyDb).2 rfl).1,
   ((seeding_iff_empty seed0 "D" emptyDb).2 rfl).2.2.2.2.1⟩

/-! ### Claim C5 -/

/-- Claim C5 (confirmed): when no row carries the requested id,
`customerDb.getById` returns an absent result (`ok none`) rather than an
error, and `customerDb.update`, `customerDb.delete`,
`appointmentDb.update` and `tallyDb.updatePaymentStatus` leave the store
completely unchanged — callers cannot distinguish success from
no-such-id. -/
theorem not_found_silent (i : String) (s : DbState)
    (hc : ∀ r ∈ s.customers, r.id ≠ i)
    (ha : ∀ r ∈ s.appointments, r.id ≠ i)
    (ht : ∀ r ∈ s.tally_items, r.id ≠ i) :
    customerDb_getById i s = .ok none ∧
    (∀ u nowIso, customerDb_update i u nowIso s = s) ∧
    customerDb_delete i s = s ∧
    (∀ ua nowIso, appointmentDb_update i ua nowIso s = s) ∧
    (∀ st upi nowIso, tallyDb_updatePaymentStatus i st upi nowIso s = s) := by
  refine ⟨?_, ?_, ?_, ?_, ?_⟩
  · have hfind : s.customers.find? (fun r => decide (r.id = i)) = none :=
      List.find?_eq_none.mpr (fun r hr => by simpa using hc r hr)
    simp [customerDb_getById, hfind]
  · intro u nowIso
    have h1 : s.customers.map
        (fun r => if r.id = i then applyCustomerUpdates u nowIso r else r)
        = s.customers.map id :=
      List.map_congr_left (fun r hr => by simp [hc r hr])
    simp [customerDb_update, h1]
  · have h1 : s.customers.filter (fun r => !decide (r.id = i)) = s.customers :=
      List.filter_eq_self.mpr (fun r hr => by simpa using hc r hr)
    simp [customerDb_delete, h1]
  · intro ua nowIso
    have h1 : s.appointments.map
        (fun r => if r.id = i then applyAppointmentUpdates ua nowIso r else r)
        = s.appointments.map id :=
      List.map_congr_left (fun r hr => by simp [ha r hr])
    simp [appointmentDb_update, h1]
  · intro st upi nowIso
    have h1 : s.tally_items.map (fun r =>
        if r.id = i then
          { r with payment_status := st, upi_transaction_id := jsOrNull upi
                   updated_at := nowIso }
        else r) = s.tally_items.map id :=
      List.map_congr_left (fun r hr => by simp [ht r hr])
    simp [tallyDb_updatePaymentStatus, h1]

/-- Witness for `not_found_silent` on a store that holds rows under other
ids. -/
theorem not_found_silent_witness :
    customerDb_getById "nope" { emptyDb with customers := [bobRow] } = .ok none ∧
    customerDb_delete "nope" { emptyDb with customers := [bobRow] }
        = { emptyDb with customers := [bobRow] } ∧
    customerDb_update "nope" emptyNameUpdate "T9" { emptyDb with customers := [bobRow] }
        = { emptyDb with customers := [bobRow] } :=
  ⟨(not_found_silent "nope" { emptyDb with customers := [bobRow] }
      (by decide) (by decide) (by decide)).1,
   (not_found_silent "nope" { emptyDb with customers := [bobRow] }
      (by decide) (by decide) (by decide)).2.2.1,
   (not_found_silent "nope" { emptyDb with customers := [bobRow] }
      (by decide) (by decide) (by decide)).2.1 emptyNameUpdate "T9"⟩

/-! ### Claim C6 -/

/-- Claim C6, as stated, is false: not every repository object defines
the five common operations.  Only `customerDb` has a `getById`;
`tallyDb` has no generic `update` and no `delete`; `appointmentDb` has
no `delete`. -/
theorem repo_shape_cex : ¬ (∀ o ∈ salonRepos, hasCrudShape o) := by decide

/-- Claim C6 (amended): every one of the six repositories offers `getAll`
and `create`; only `customerDb` offers the full five-operation shape
(getAll, getById, create, update, delete); `employeeDb`, `serviceDb` and
`productDb` lack only `getById`; `appointmentDb` lacks `getById` and
`delete`; `tallyDb` offers only `getAll`, `create` and the named
`updatePaymentStatus`.  For the repository that has them, `getById`
returns absent when no row matches (see `not_found_silent`) and `delete`
removes exactly the rows bearing the id. -/
theorem repo_shape :
    (∀ o ∈ salonRepos, o.hasGetAll = true ∧ o.hasCreate = true) ∧
    hasCrudShape customerOps ∧
    employeeOps.hasGetById = false ∧
    serviceOps.hasGetById = false ∧
    productOps.hasGetById = false ∧
    appointmentOps.hasGetById = false ∧ appointmentOps.hasDelete = false ∧
    appointmentOps.hasUpdate = true ∧
    tallyOps.hasGetById = false ∧ tallyOps.hasUpdate = false ∧
    tallyOps.hasDelete = false ∧ tallyOps.hasUpdatePaymentStatus = true ∧
    employeeOps.hasUpdate = true ∧ employeeOps.hasDelete = true ∧
    serviceOps.hasUpdate = true ∧ serviceOps.hasDelete = true ∧
    productOps.hasUpdate = true ∧ productOps.hasDelete = true ∧
    (∀ i s, ∀ r ∈ (customerDb_delete i s).customers, r.id ≠ i) ∧
    (∀ i s, ∀ r ∈ s.customers, r.id ≠ i → r ∈ (customerDb_delete i s).customers) := by
  refine ⟨by decide, by decide, rfl, rfl, rfl, rfl, rfl, rfl, rfl, rfl, rfl, rfl,
          rfl, rfl, rfl, rfl, rfl, rfl, ?_, ?_⟩
  · intro i s r hr
    have := List.of_mem_filter hr
    simpa using this
  · intro i s r hr hne
    exact List.mem_filter.mpr ⟨hr, by simpa using hne⟩

/-- Witness for `repo_shape` at a concrete repository and a concrete
delete. -/
theorem repo_shape_witness :
    customerOps.hasGetAll = true ∧ customerOps.hasCreate = true ∧
    (∀ r ∈ (customerDb_delete "c1" { emptyDb with customers := [bobRow] }).customers,
      r.id ≠ "c1") ∧
    bobRow ∈ (customerDb_delete "zzz" { emptyDb with customers := [bobRow] }).customers :=
  ⟨(repo_shape.1 customerOps (by decide)).1,
   (repo_shape.1 customerOps (by decide)).2,
   repo_shape.2.2.2.2.2.2.2.2.2.2.2.2.2.2.2.2.2.2.1 "c1"
     { emptyDb with customers := [bobRow] },
   repo_shape.2.2.2.2.2.2.2.2.2.2.2.2.2.2.2.2.2.2.2 "zzz"
     { emptyDb with customers := [bobRow] } bobRow (by decide) (by decide)⟩

/-! ### Claim C7 -/

/-- A tally row whose `services` column text is empty. -/
def tallyRowEmptyServices : TallyRow :=
  { tallyRowOld with id := "t2", services := "" }

/-- An appointment row whose `service_ids` column text is empty. -/
def apptRowEmptyServices : AppointmentRow :=
  { id := "a2", customer_id := "c1", employee_id := "e1", service_ids := ""
    date := "d", time := "t", status := "scheduled", total := 0, notes := none
    created_at := "D", updated_at := "D" }

/-- Claim C7, as stated, is false: only the customer `preferredServices`
and employee `specialties` columns are read through the `|| '[]'`
fallback.  The appointment `service_ids` and tally `services` columns are
parsed directly, so a row whose column text is the empty string is a
decoding failure, not an empty list. -/
theorem json_empty_decoding_cex :
    decodeTallyRow tallyRowEmptyServices = .error "SyntaxError" ∧
    decodeAppointmentRow apptRowEmptyServices = .error "SyntaxError" ∧
    decodeTallyRow tallyRowEmptyServices
      ≠ .ok (pureDecodeTallyRow tallyRowEmptyServices) := by
  refine ⟨by decide, by decide, by decide⟩

/-- Claim C7 (amended): for the two fallback columns (customer
`preferredServices`, employee `specialties`), an absent (NULL) or
empty-string column value decodes to the empty list and a decoding
failure can only arise from non-empty text that fails to parse; the
appointment `service_ids` and tally `services` columns are parsed with no
fallback, so the empty string is already a parse failure there (their
schema makes NULL impossible); text produced by the layer's own encoder
always decodes back to the original list. -/
theorem json_list_decoding :
    decodeJsonListCol none = .ok [] ∧
    decodeJsonListCol (some "") = .ok [] ∧
    (∀ l, decodeJsonListCol (some (encodeStrList l)) = .ok l) ∧
    (∀ l, decodeJsonListReq (encodeStrList l) = .ok l) ∧
    decodeJsonListReq "" = .error "SyntaxError" ∧
    (∀ v e, decodeJsonListCol v = .error e →
      ∃ w, v = some w ∧ w ≠ "" ∧ parseStrList w = none) ∧
    (∀ r : CustomerRow, r.preferred_services = none →
      decodeCustomerRow r = .ok (pureDecodeCustomerRow r) ∧
      (pureDecodeCustomerRow r).preferredServices = []) ∧
    (∀ r : CustomerRow, r.preferred_services = some "" →
      decodeCustomerRow r = .ok (pureDecodeCustomerRow r) ∧
      (pureDecodeCustomerRow r).preferredServices = []) ∧
    (∀ r : EmployeeRow, r.specialties = none →
      decodeEmployeeRow r = .ok (pureDecodeEmployeeRow r) ∧
      (pureDecodeEmployeeRow r).specialties = []) ∧
    (∀ r : TallyRow, r.services = "" →
      decodeTallyRow r = .error "SyntaxError") ∧
    (∀ r : AppointmentRow, r.service_ids = "" →
      decodeAppointmentRow r = .error "SyntaxError") := by
  refine ⟨rfl, rfl, ?_, ?_, rfl, ?_, ?_, ?_, ?_, ?_, ?_⟩
  · exact decodeJsonListCol_encode
  · intro l
    simp [decodeJsonListReq, parseStrList_encode l]
  · intro v e h
    match v with
    | none => exact Except.noConfusion h
    | some w =>
      by_cases hw : w = ""
      · subst hw
        exact Except.noConfusion h
      · refine ⟨w, rfl, hw, ?_⟩
        simp only [decodeJsonListCol, jsOr, if_neg hw] at h
        cases hp : parseStrList w with
        | some l => rw [hp] at h; exact Except.noConfusion h
        | none => rfl
  · intro r h
    constructor
    · apply decodeCustomerRow_of_parse
      rw [h]
      decide
    · simp [pureDecodeCustomerRow, h, jsOr]
      rfl
  · intro r h
    constructor
    · apply decodeCustomerRow_of_parse
      rw [h]
      decide
    · simp [pureDecodeCustomerRow, h, jsOr]
      rfl
  · intro r h
    constructor
    · unfold decodeEmployeeRow pureDecodeEmployeeRow
      rw [h]
      simp [jsOr]
      rfl
    · simp [pureDecodeEmployeeRow, h, jsOr]
      rfl
  · intro r h
    unfold decodeTallyRow
    rw [h]
    rfl
  · intro r h
    unfold decodeAppointmentRow
    rw [h]
    rfl

/-- Witness for `json_list_decoding` at concrete rows and a concrete
malformed column value. -/
theorem json_list_decoding_witness :
    decodeTallyRow tallyRowEmptyServices = .error "SyntaxError" ∧
    decodeJsonListCol (some "svc") = .error "SyntaxError" ∧
    (∃ w, (some "svc" : Option String) = some w ∧ w ≠ "" ∧ parseStrList w = none) ∧
    decodeJsonListCol (some (encodeStrList ["a", "b"])) = .ok ["a", "b"] :=
  ⟨json_list_decoding.2.2.2.2.2.2.2.2.2.1 tallyRowEmptyServices rfl,
   by decide,
   json_list_decoding.2.2.2.2.2.1 (some "svc") "SyntaxError" (by decide),
   json_list_decoding.2.2.1 ["a", "b"]⟩

/-! ### Claim C8 -/

/-- The stored tally row after `create` followed by
`updatePaymentStatus(id, "completed", "TXN123")`. -/
def tallyUpdatedRow (inp : TallyInput) (nowMs : Nat) (nowIso dbNow t2 : String) :
    TallyRow :=
  { tallyCreateRow inp nowMs nowIso dbNow with
      payment_status := "completed"
      upi_transaction_id := some "TXN123"
      updated_at := t2 }

/-- Claim C8 (confirmed): after `tallyDb.create` (which stamps
`paymentDate` and stores `paymentStatus` as supplied) followed by
`updatePaymentStatus(id, "completed", "TXN123")`, the `getAll` result
contains an entry for the generated id, and every entry for that id has
`paymentStatus = "completed"`, `upiTransactionId = "TXN123"`, and the
`paymentDate` stamped at creation, untouched by the status update. -/
theorem tally_payment_flow (inp : TallyInput) (nowMs : Nat)
    (nowIso dbNow t2 : String) (s : DbState)
    (hfresh : ∀ r ∈ s.tally_items, r.id ≠ "tally-" ++ toString nowMs)
    (hdec : ∀ r ∈ s.tally_items, (parseStrList r.services).isSome) :
    ∃ l, tallyDb_getAll
        (tallyDb_updatePaymentStatus ("tally-" ++ toString nowMs) "completed"
          (some "TXN123") t2 (tallyDb_create inp nowMs nowIso dbNow s).2) = .ok l ∧
      (∃ it ∈ l, it.id = "tally-" ++ toString nowMs) ∧
      (∀ it ∈ l, it.id = "tally-" ++ toString nowMs →
        it.paymentStatus = "completed" ∧ it.upiTransactionId = some "TXN123" ∧
        it.paymentDate = some nowIso) := by
  have hjs : jsOrNull (some "TXN123") = some "TXN123" := by decide
  have hstate : (tallyDb_updatePaymentStatus ("tally-" ++ toString nowMs) "completed"
      (some "TXN123") t2 (tallyDb_create inp nowMs nowIso dbNow s).2).tally_items
      = s.tally_items ++ [tallyUpdatedRow inp nowMs nowIso dbNow t2] := by
    simp only [tallyDb_create, tallyDb_updatePaymentStatus, List.map_append]
    congr 1
    · have h1 : s.tally_items.map (fun r =>
          if r.id = "tally-" ++ toString nowMs then
            { r with payment_status := "completed"
                     upi_transaction_id := jsOrNull (some "TXN123")
                     updated_at := t2 }
          else r) = s.tally_items.map id :=
        List.map_congr_left (fun r hr => by simp [hfresh r hr])
      simpa using h1
    · simp only [List.map]
      rw [if_pos (show (tallyCreateRow inp nowMs nowIso dbNow).id
            = "tally-" ++ toString nowMs from rfl), hjs]
      rfl
  have hall : ∀ r ∈ List.insertionSort (dateTimeGe TallyRow.date TallyRow.time)
      (s.tally_items ++ [tallyUpdatedRow inp nowMs nowIso dbNow t2]),
      decodeTallyRow r = .ok (pureDecodeTallyRow r) := by
    intro r hr
    have hmem : r ∈ s.tally_items ++ [tallyUpdatedRow inp nowMs nowIso dbNow t2] :=
      (List.perm_insertionSort _ _).mem_iff.mp hr
    rcases List.mem_append.mp hmem with hmem | hmem
    · exact decodeTallyRow_of_parse r (hdec r hmem)
    · have hr2 : r = tallyUpdatedRow inp nowMs nowIso dbNow t2 := by simpa using hmem
      subst hr2
      apply decodeTallyRow_of_parse
      rw [show (tallyUpdatedRow inp nowMs nowIso dbNow t2).services
            = encodeStrList inp.services from rfl, parseStrList_encode]
      rfl
  have hok : tallyDb_getAll
      (tallyDb_updatePaymentStatus ("tally-" ++ toString nowMs) "completed"
        (some "TXN123") t2 (tallyDb_create inp nowMs nowIso dbNow s).2)
      = .ok ((List.insertionSort (dateTimeGe TallyRow.date TallyRow.time)
          (s.tally_items ++ [tallyUpdatedRow inp nowMs nowIso dbNow t2])).map
            pureDecodeTallyRow) := by
    unfold tallyDb_getAll
    rw [hstate]
    exact decodeAll_ok_of_forall _ _ _ hall
  refine ⟨_, hok, ?_, ?_⟩
  · refine ⟨pureDecodeTallyRow (tallyUpdatedRow inp nowMs nowIso dbNow t2), ?_, rfl⟩
    exact List.mem_map.mpr
      ⟨tallyUpdatedRow inp nowMs nowIso dbNow t2,
       (List.perm_insertionSort _ _).mem_iff.mpr
         (List.mem_append.mpr (Or.inr (by simp))), rfl⟩
  · intro it hit hid
    rcases List.mem_map.mp hit with ⟨r, hr, heq⟩
    have hmem : r ∈ s.tally_items ++ [tallyUpdatedRow inp nowMs nowIso dbNow t2] :=
      (List.perm_insertionSort _ _).mem_iff.mp hr
    rcases List.mem_append.mp hmem with hmem | hmem
    · have hrid : r.id = "tally-" ++ toString nowMs := by
        rw [← heq] at hid
        exact hid
      exact absurd hrid (hfresh r hmem)
    · have hr2 : r = tallyUpdatedRow inp nowMs nowIso dbNow t2 := by simpa using hmem
      subst hr2
      rw [← heq]
      exact ⟨rfl, rfl, rfl⟩

/-- Witness for `tally_payment_flow` on the empty store with the spec's
example payment. -/
theorem tally_payment_flow_witness :
    ∃ l, tallyDb_getAll
        (tallyDb_updatePaymentStatus "tally-100" "completed" (some "TXN123") "T2"
          (tallyDb_create
            { date := "2024-02-02", time := "11:00", customerName := "A"
              customerPhone := "1", staffName := "S", services := ["cut"]
              totalCost := 10, paymentMethod := "upi", paymentStatus := "pending" }
            100 "T0" "D0" emptyDb).2) = .ok l ∧
      (∃ it ∈ l, it.id = "tally-100") ∧
      (∀ it ∈ l, it.id = "tally-100" →
        it.paymentStatus = "completed" ∧ it.upiTransactionId = some "TXN123" ∧
        it.paymentDate = some "T0") :=
  tally_payment_flow
    { date := "2024-02-02", time := "11:00", customerName := "A"
      customerPhone := "1", staffName := "S", services := ["cut"]
      totalCost := 10, paymentMethod := "upi", paymentStatus := "pending" }
    100 "T0" "D0" "T2" emptyDb (by decide) (by decide)

/-! ### Claim C9 -/

/-- Claim C9 (confirmed): whenever `getAll` returns a result set,
customers, employees, services and products are sorted by name ascending,
appointments by (date, time) ascending, and tally items by (date, time)
descending — most recent first (all in the store's BINARY collation,
modelled by `strLeB`/`strLtB`). -/
theorem getAll_ordering (s : DbState) :
    (∀ l, customerDb_getAll s = .ok l →
      l.Pairwise (fun a b => strLeB a.name b.name = true)) ∧
    (∀ l, employeeDb_getAll s = .ok l →
      l.Pairwise (fun a b => strLeB a.name b.name = true)) ∧
    (serviceDb_getAll s).Pairwise (fun a b => strLeB a.name b.name = true) ∧
    (productDb_getAll s).Pairwise (fun a b => strLeB a.name b.name = true) ∧
    (∀ l, appointmentDb_getAll s = .ok l →
      l.Pairwise (fun a b =>
        strLtB a.date b.date = true ∨
          (a.date = b.date ∧ strLeB a.time b.time = true))) ∧
    (∀ l, tallyDb_getAll s = .ok l →
      l.Pairwise (fun a b =>
        strLtB b.date a.date = true ∨
          (b.date = a.date ∧ strLeB b.time a.time = true))) := by
  refine ⟨?_, ?_, ?_, ?_, ?_, ?_⟩
  · intro l h
    have hmap := decodeAll_ok_eq_map decodeCustomerRow pureDecodeCustomerRow
      decodeCustomerRow_det _ l h
    subst hmap
    have hs := List.sorted_insertionSort (nameLe CustomerRow.name) s.customers
    exact List.pairwise_map.mpr (hs.imp (fun hab => hab))
  · intro l h
    have hmap := decodeAll_ok_eq_map decodeEmployeeRow pureDecodeEmployeeRow
      decodeEmployeeRow_det _ l h
    subst hmap
    have hs := List.sorted_insertionSort (nameLe EmployeeRow.name) s.employees
    exact List.pairwise_map.mpr (hs.imp (fun hab => hab))
  · exact List.sorted_insertionSort (nameLe ServiceRow.name) s.services
  · exact List.sorted_insertionSort (nameLe ProductRow.name) s.products
  · intro l h
    have hmap := decodeAll_ok_eq_map decodeAppointmentRow pureDecodeAppointmentRow
      decodeAppointmentRow_det _ l h
    subst hmap
    have hs := List.sorted_insertionSort
      (dateTimeLe AppointmentRow.date AppointmentRow.time) s.appointments
    exact List.pairwise_map.mpr (hs.imp (fun hab => hab))
  · intro l h
    have hmap := decodeAll_ok_eq_map decodeTallyRow pureDecodeTallyRow
      decodeTallyRow_det _ l h
    subst hmap
    have hs := List.sorted_insertionSort
      (dateTimeGe TallyRow.date TallyRow.time) s.tally_items
    exact List.pairwise_map.mpr (hs.imp (fun hab => hab))

/-- A second stored customer row whose name precedes `bobRow`'s. -/
def annRow : CustomerRow :=
  { bobRow with id := "c2", name := "Ann", phone := "112" }

/-- Witness for `getAll_ordering` on a concrete two-customer,
two-tally-row store. -/
theorem getAll_ordering_witness :
    (List.Pairwise (fun a b => strLeB a.name b.name = true)
      [pureDecodeCustomerRow annRow, pureDecodeCustomerRow bobRow]) ∧
    (List.Pairwise
      (fun (a : TallyItem) b =>
        strLtB b.date a.date = true ∨
          (b.date = a.date ∧ strLeB b.time a.time = true))
      [pureDecodeTallyRow { tallyRowOld with id := "t9", date := "2024-03-03" },
       pureDecodeTallyRow tallyRowOld]) :=
  ⟨(getAll_ordering { emptyDb with customers := [bobRow, annRow] }).1
      [pureDecodeCustomerRow annRow, pureDecodeCustomerRow bobRow] (by decide),
   (getAll_ordering { emptyDb with tally_items :=
        [tallyRowOld, { tallyRowOld with id := "t9", date := "2024-03-03" }] }).2.2.2.2.2
      [pureDecodeTallyRow { tallyRowOld with id := "t9", date := "2024-03-03" },
       pureDecodeTallyRow tallyRowOld] (by decide)⟩

/-! ### Claim C10 -/

/-- Claim C10 (confirmed): `tallyDb.updatePaymentStatus` binds
`upiTransactionId || null` unconditionally, so a call without a
transaction id writes NULL into `upi_transaction_id` for every row
bearing the id — clearing any previously stored transaction id rather
than leaving the field untouched. -/
theorem updatePaymentStatus_clears_upi (i status nowIso : String) (s : DbState) :
    ∀ r ∈ (tallyDb_updatePaymentStatus i status none nowIso s).tally_items,
      r.id = i → r.upi_transaction_id = none := by
  intro r hr hid
  simp only [tallyDb_updatePaymentStatus] at hr
  rcases List.mem_map.mp hr with ⟨r0, hr0, heq⟩
  by_cases h : r0.id = i
  · rw [← heq]
    simp [h, jsOrNull]
  · rw [if_neg h] at heq
    subst heq
    exact absurd hid h

/-- Witness for `updatePaymentStatus_clears_upi`: the row had
`upi_transaction_id = some "OLD"` before the call and carries `none`
after it. -/
theorem updatePaymentStatus_clears_upi_witness :
    tallyRowOld.upi_transaction_id = some "OLD" ∧
    ({ tallyRowOld with payment_status := "completed"
                        upi_transaction_id := jsOrNull none
                        updated_at := "T2" } : TallyRow).upi_transaction_id = none :=
  ⟨rfl,
   updatePaymentStatus_clears_upi "t1" "completed" "T2"
     { emptyDb with tally_items := [tallyRowOld] }
     { tallyRowOld with payment_status := "completed"
                        upi_transaction_id := jsOrNull none
                        updated_at := "T2" }
     (by decide) (by decide)⟩
